import Mathlib

/-!
Verification development for the AlgoFlow on-chain engine: the intent
storage contract (`algo_flow_contracts/intent_storage/contract.py`) and the
execution router contract (`algo_flow_contracts/execution/contract.py`).

Byte strings (addresses, hashes, blobs) are modelled as `List Nat`; all
AVM uint64 values are modelled as `Nat` (the AVM panics on overflow, and no
claim below depends on wrap-around).  Each PyTeal `Assert` becomes an
explicit branch returning `Except.error`, mirroring the abort-the-whole-call
semantics: an aborted call produces no effects, matching the all-or-nothing
transaction model.  AVM primitives that live outside the repository
(SHA-256, ABI decoding of the plan and trigger blobs, foreign-app state
reads, application-address resolution) are taken as explicit function
parameters of the operations that invoke them.
-/

namespace AlgoFlow

/-- Byte strings: workflow blobs, hashes, trigger blobs, extra payloads. -/
abbrev Bytes := List Nat

/-- Addresses are 32-byte strings on the AVM; modelled as byte lists. -/
abbrev Addr := List Nat

/-- The AVM zero address (32 zero bytes), `Global.zero_address()`. -/
def zeroAddress : Addr := List.replicate 32 0

/-! ### Constants

The contracts import their numeric literals from
`algo_flow_contracts/common/constants.py`, `opcodes.py` and `triggers.py`,
modules whose files are not part of the sources available here (only their
callers and tests are).  The values below are therefore modelled from the
spec: the five lifecycle statuses in the order the spec lists them (the
storage contract asserts `ACTIVE <= s <= CANCELLED` on incoming codes, so
`ACTIVE` is the least and `CANCELLED` the greatest code), the eight opcodes
in the order of the spec step-handler list, trigger types `NONE` and
`PRICE_THRESHOLD`, the two comparators, and the basis-point scale 10000
stated by the spec fee formula.  Every claim settled here depends only on
the constants being distinct (and on the status codes being contiguous with
`ACTIVE` minimal and `CANCELLED` maximal), except the literal 10000 which
the spec fixes. -/

/-- Modelled from the spec: status code for `ACTIVE` (constants.py is not in src). -/
def INTENT_STATUS_ACTIVE : Nat := 1

/-- Modelled from the spec: status code for `EXECUTING`. -/
def INTENT_STATUS_EXECUTING : Nat := 2

/-- Modelled from the spec: status code for `SUCCESS`. -/
def INTENT_STATUS_SUCCESS : Nat := 3

/-- Modelled from the spec: status code for `FAILED`. -/
def INTENT_STATUS_FAILED : Nat := 4

/-- Modelled from the spec: status code for `CANCELLED`. -/
def INTENT_STATUS_CANCELLED : Nat := 5

/-- Modelled from the spec: opcode for `SWAP` (opcodes.py is not in src). -/
def OPCODE_SWAP : Nat := 1

/-- Modelled from the spec: opcode for `PROVIDE_LIQUIDITY`. -/
def OPCODE_PROVIDE_LIQUIDITY : Nat := 2

/-- Modelled from the spec: opcode for `STAKE`. -/
def OPCODE_STAKE : Nat := 3

/-- Modelled from the spec: opcode for `TRANSFER`. -/
def OPCODE_TRANSFER : Nat := 4

/-- Modelled from the spec: opcode for `LEND_SUPPLY`. -/
def OPCODE_LEND_SUPPLY : Nat := 5

/-- Modelled from the spec: opcode for `LEND_WITHDRAW`. -/
def OPCODE_LEND_WITHDRAW : Nat := 6

/-- Modelled from the spec: opcode for `WITHDRAW_LIQUIDITY`. -/
def OPCODE_WITHDRAW_LIQUIDITY : Nat := 7

/-- Modelled from the spec: opcode for `UNSTAKE`. -/
def OPCODE_UNSTAKE : Nat := 8

/-- Modelled from the spec: trigger type `NONE` (triggers.py is not in src). -/
def TRIGGER_TYPE_NONE : Nat := 0

/-- Modelled from the spec: trigger type `PRICE_THRESHOLD`. -/
def TRIGGER_TYPE_PRICE_THRESHOLD : Nat := 1

/-- Modelled from the spec: comparator code `GTE`. -/
def COMPARATOR_GTE : Nat := 1

/-- Modelled from the spec: comparator code `LTE`. -/
def COMPARATOR_LTE : Nat := 2

/-- Modelled from the spec: the basis-point scale; the spec fee and slippage
formulas divide by 10000 (`constants.KEEPER_FEE_SCALE`). -/
def KEEPER_FEE_SCALE : Nat := 10000

/-! ### Data model (`common/abi_types.py`) -/

/-- `IntentRecord` named tuple, fields in source order
(`common/abi_types.py`). -/
structure IntentRecord where
  owner : Addr
  collateral : Nat
  workflow_hash : Bytes
  status : Nat
  workflow_blob : Bytes
  keeper : Addr
  version : Nat
  trigger_condition : Bytes
  app_escrow_id : Nat
  app_asa_id : Nat
deriving DecidableEq

/-- `WorkflowStep` named tuple, fields in source order. -/
structure WorkflowStep where
  opcode : Nat
  target_app_id : Nat
  asset_in : Nat
  asset_out : Nat
  amount : Nat
  slippage_bps : Nat
  extra : Bytes
deriving DecidableEq

/-- `TriggerConfig` named tuple, fields in source order. -/
structure TriggerConfig where
  trigger_type : Nat
  oracle_app_id : Nat
  oracle_price_key : Bytes
  comparator : Nat
  threshold : Nat
deriving DecidableEq

/-- The fields of a group transaction inspected by
`ensure_collateral_payment` (`common/payments.py`): `type_enum`, `receiver`,
`sender`, `amount`.  A payment transaction has `type_enum = 1`. -/
structure GroupTxn where
  type_enum : Nat
  sender : Addr
  receiver : Addr
  amount : Nat
deriving DecidableEq

/-- An outgoing payment inner transaction (`send_payment`,
`maybe_pay_keeper`): receiver and microalgo amount. -/
structure PaymentTxn where
  receiver : Addr
  amount : Nat
deriving DecidableEq

/-- ABI encoded length of an `IntentRecord`
(`(address,uint64,byte[32],uint64,byte[],address,uint64,byte[],uint64,uint64)`):
the static head is 32+8+32+8+2+32+8+2+8+8 = 140 bytes (each dynamic field
contributes a 2-byte offset to the head), and each of the two dynamic tails
carries a 2-byte length prefix, giving 144 plus the two payload lengths.
`write_box` asserts this length against the box-size maximum. -/
def intentRecordEncodedLength (r : IntentRecord) : Nat :=
  144 + r.workflow_blob.length + r.trigger_condition.length

/-! ### Intent storage contract (`intent_storage/contract.py`) -/

/-- `valid_status_transition` subroutine (intent_storage/contract.py,
lines 376-395): returns 1 when the transition is allowed, 0 otherwise. -/
def valid_status_transition (current_status new_status : Nat) : Nat :=
  if current_status = new_status
      ∨ (current_status = INTENT_STATUS_ACTIVE
          ∧ (new_status = INTENT_STATUS_EXECUTING
              ∨ new_status = INTENT_STATUS_CANCELLED))
      ∨ (current_status = INTENT_STATUS_EXECUTING
          ∧ (new_status = INTENT_STATUS_SUCCESS
              ∨ new_status = INTENT_STATUS_FAILED))
  then 1 else 0

/-- `ensure_collateral_payment` (`common/payments.py`): when `amount` is
non-zero, require the transaction at `group_index - 1` in the atomic group
to be a payment (`type_enum = 1`) of exactly `amount` from the calling
sender to the application address.  When `amount = 0` the whole check is
skipped (`If(amount != Int(0))` with no else branch). -/
def ensure_collateral_payment (amount : Nat) (group : List GroupTxn)
    (group_index : Nat) (app_address sender : Addr) : Except String Unit :=
  if amount ≠ 0 then
    if group_index > 0 then
      match group.get? (group_index - 1) with
      | none => .error "group index out of range"
      | some t =>
        if t.type_enum = 1 then
          if t.receiver = app_address then
            if t.sender = sender then
              if t.amount = amount then .ok ()
              else .error "collateral amount mismatch"
            else .error "collateral sender mismatch"
          else .error "collateral receiver mismatch"
        else .error "collateral txn not a payment"
    else .error "no preceding transaction"
  else .ok ()

/-- `register_intent` method (intent_storage/contract.py, lines 100-160).
Checks, in source order: workflow blob size, `collateral >= min_collateral`,
the collateral payment leg, then builds the record (keeper defaulting to
the global keeper when the override is the zero address, status `ACTIVE`)
and writes it through `write_box` (which asserts the encoded size bound).
Returns the assigned id, the stored record, and the advanced
`next_intent` counter. -/
def register_intent (max_workflow_bytes min_collateral : Nat)
    (global_keeper : Addr) (next_intent : Nat) (app_address : Addr)
    (group : List GroupTxn) (group_index : Nat) (sender : Addr)
    (workflow_hash workflow_blob trigger_condition : Bytes)
    (collateral_amount : Nat) (keeper_override : Addr)
    (workflow_version app_escrow_id app_asa_id : Nat) :
    Except String (Nat × IntentRecord × Nat) :=
  if workflow_blob.length ≤ max_workflow_bytes then
    if collateral_amount ≥ min_collateral then
      match ensure_collateral_payment collateral_amount group group_index
          app_address sender with
      | .error e => .error e
      | .ok _ =>
        let next_id := next_intent
        let keeper_addr :=
          if keeper_override = zeroAddress then global_keeper
          else keeper_override
        let record : IntentRecord :=
          { owner := sender
            collateral := collateral_amount
            workflow_hash := workflow_hash
            status := INTENT_STATUS_ACTIVE
            workflow_blob := workflow_blob
            keeper := keeper_addr
            version := workflow_version
            trigger_condition := trigger_condition
            app_escrow_id := app_escrow_id
            app_asa_id := app_asa_id }
        if intentRecordEncodedLength record ≤ max_workflow_bytes then
          .ok (next_id, record, next_id + 1)
        else .error "encoded record too large"
    else .error "collateral below minimum"
  else .error "workflow blob too large"

/-- `update_intent_status` method (intent_storage/contract.py, lines
162-248).  In source order: range-check the incoming status code, require
the intent box to exist, resolve the executor application address
(`AppParam.address`, empty bytes when unresolvable), authorize the sender
as owner, keeper, or — when a non-zero executor app id is configured and
resolves — the executor address, check `valid_status_transition`, and
rewrite the record with only the status replaced.  `resolve_app_address`
stands for the AVM `AppParam.address` lookup. -/
def update_intent_status (max_workflow_bytes executor_app_id : Nat)
    (resolve_app_address : Nat → Option Addr)
    (boxes : Nat → Option IntentRecord) (sender : Addr)
    (intent_id new_status : Nat) : Except String IntentRecord :=
  if INTENT_STATUS_ACTIVE ≤ new_status then
    if new_status ≤ INTENT_STATUS_CANCELLED then
      match boxes intent_id with
      | none => .error "unknown intent"
      | some r =>
        let executor_addr := (resolve_app_address executor_app_id).getD []
        if sender = r.owner ∨ sender = r.keeper
            ∨ (executor_app_id ≠ 0
                ∧ (resolve_app_address executor_app_id).isSome
                ∧ sender = executor_addr) then
          if valid_status_transition r.status new_status = 1 then
            let r2 := { r with status := new_status }
            if intentRecordEncodedLength r2 ≤ max_workflow_bytes then .ok r2
            else .error "encoded record too large"
          else .error "invalid status transition"
        else .error "unauthorized"
    else .error "status code above range"
  else .error "status code below range"

/-- `withdraw_intent` method (intent_storage/contract.py, lines 272-350).
In source order: require the box, `ensure_owner`, require a terminal status
(`SUCCESS`, `FAILED` or `CANCELLED`), `ensure_nonzero` collateral, pay the
collateral to the recipient (defaulting to the owner when the recipient is
the zero address) through a single `send_payment` inner transaction, and
rewrite the record with collateral 0.  Returns the payment, the rewritten
record, and the method output (the withdrawn amount). -/
def withdraw_intent (max_workflow_bytes : Nat)
    (boxes : Nat → Option IntentRecord) (sender : Addr)
    (intent_id : Nat) (recipient : Addr) :
    Except String (PaymentTxn × IntentRecord × Nat) :=
  match boxes intent_id with
  | none => .error "unknown intent"
  | some r =>
    if sender = r.owner then
      if r.status = INTENT_STATUS_SUCCESS ∨ r.status = INTENT_STATUS_FAILED
          ∨ r.status = INTENT_STATUS_CANCELLED then
        if r.collateral ≠ 0 then
          let receiver :=
            if recipient = zeroAddress then r.owner else recipient
          let r2 := { r with collateral := 0 }
          if intentRecordEncodedLength r2 ≤ max_workflow_bytes then
            .ok ({ receiver := receiver, amount := r.collateral }, r2,
              r.collateral)
          else .error "encoded record too large"
        else .error "zero collateral"
      else .error "status not terminal"
    else .error "sender is not the owner"

/-! ### Execution router contract (`execution/contract.py`) -/

/-- The observable inner transaction a step handler submits. -/
inductive StepEffect where
  /-- `execute_swap`: app call to the target with
  `["swap", asset_in, asset_out, amount, min_return, extra]`. -/
  | swapCall (target asset_in asset_out amount min_return : Nat)
      (extra : Bytes)
  /-- `execute_provide_liquidity`: app call with
  `["provide_liquidity", asset_a, asset_b, amount_a, paired_amount, extra]`. -/
  | provideLiquidityCall (target asset_a asset_b amount_a paired_amount : Nat)
      (extra : Bytes)
  /-- `execute_stake`: app call with `["stake", asset, amount, extra]`. -/
  | stakeCall (staking_app asset amount : Nat) (extra : Bytes)
  /-- `execute_transfer` with `asset_id = 0`: a payment inner transaction. -/
  | payTxn (receiver : Addr) (amount : Nat)
  /-- `execute_transfer` with `asset_id > 0`: an asset transfer. -/
  | assetTransferTxn (asset : Nat) (receiver : Addr) (amount : Nat)
  /-- `execute_lend_supply`: app call with
  `["lend_supply", asset, amount, extra]`. -/
  | lendSupplyCall (lending_app asset amount : Nat) (extra : Bytes)
  /-- `execute_lend_withdraw`: app call with
  `["lend_withdraw", asset, amount, extra]`. -/
  | lendWithdrawCall (lending_app asset amount : Nat) (extra : Bytes)
  /-- `execute_withdraw_liquidity`: app call with
  `["withdraw_liquidity", asset_a, asset_b, liquidity_amount, slippage_bps,
  extra]`. -/
  | withdrawLiquidityCall
      (target asset_a asset_b liquidity_amount slippage_bps : Nat)
      (extra : Bytes)
  /-- `execute_unstake`: app call with `["unstake", asset, amount, extra]`. -/
  | unstakeCall (staking_app asset amount : Nat) (extra : Bytes)
deriving DecidableEq

/-- The observable effects of a successful `execute_intent` call, in
submission order. -/
inductive RouterEffect where
  /-- `call_update_status`: inner app call to the storage contract asking
  for a status transition, with free-form detail bytes. -/
  | statusUpdate (storage_app intent_id status_code : Nat) (detail : Bytes)
  /-- One dispatched workflow step. -/
  | step (e : StepEffect)
  /-- `maybe_pay_keeper`: the keeper-fee payment inner transaction. -/
  | keeperPayout (recipient : Addr) (amount : Nat)
  /-- `events.log_intent_status` emitted at the end of the call. -/
  | statusLog (intent_id status_code : Nat) (sender : Addr)
deriving DecidableEq

/-- The detail bytes `Bytes("exec_start")` passed with the `EXECUTING`
transition (ASCII codes of the string). -/
def execStartDetail : Bytes := [101, 120, 101, 99, 95, 115, 116, 97, 114, 116]

/-- `amount_after_slippage` subroutine (execution/contract.py, lines
340-345): `amount - amount * slippage_bps / KEEPER_FEE_SCALE` (the AVM
`WideRatio` divides with truncation). -/
def amount_after_slippage (amount slippage_bps : Nat) : Nat :=
  amount - amount * slippage_bps / KEEPER_FEE_SCALE

/-- `execute_swap` handler (execution/contract.py, lines 348-383): asserts
a positive amount and `slippage_bps <= KEEPER_FEE_SCALE`, then submits the
swap app call with `min_return = amount_after_slippage`. -/
def execute_swap (target_app_id asset_in asset_out amount slippage_bps : Nat)
    (extra_args : Bytes) : Except String StepEffect :=
  if amount > 0 then
    if slippage_bps ≤ KEEPER_FEE_SCALE then
      .ok (.swapCall target_app_id asset_in asset_out amount
        (amount_after_slippage amount slippage_bps) extra_args)
    else .error "slippage above scale"
  else .error "amount must be positive"

/-- `execute_provide_liquidity` handler (lines 386-421): same guards as the
swap handler; the paired contribution is `amount_after_slippage`. -/
def execute_provide_liquidity
    (target_app_id asset_a asset_b amount_a slippage_bps : Nat)
    (extra_args : Bytes) : Except String StepEffect :=
  if amount_a > 0 then
    if slippage_bps ≤ KEEPER_FEE_SCALE then
      .ok (.provideLiquidityCall target_app_id asset_a asset_b amount_a
        (amount_after_slippage amount_a slippage_bps) extra_args)
    else .error "slippage above scale"
  else .error "amount must be positive"

/-- `execute_stake` handler (lines 424-452): positive amount, then the
stake app call. -/
def execute_stake (staking_app_id asset_id amount : Nat)
    (extra_args : Bytes) : Except String StepEffect :=
  if amount > 0 then
    .ok (.stakeCall staking_app_id asset_id amount extra_args)
  else .error "amount must be positive"

/-- `execute_transfer` handler (lines 455-484): positive amount, 32-byte
recipient in `extra`, then a payment (asset 0) or asset transfer. -/
def execute_transfer (asset_id amount : Nat) (recipient_bytes : Bytes) :
    Except String StepEffect :=
  if amount > 0 then
    if recipient_bytes.length = 32 then
      if asset_id = 0 then .ok (.payTxn recipient_bytes amount)
      else .ok (.assetTransferTxn asset_id recipient_bytes amount)
    else .error "recipient must be 32 bytes"
  else .error "amount must be positive"

/-- `execute_lend_supply` handler (lines 536-565): positive asset id and
amount, then the lending app call. -/
def execute_lend_supply (lending_app_id asset_id amount : Nat)
    (extra_args : Bytes) : Except String StepEffect :=
  if asset_id > 0 then
    if amount > 0 then
      .ok (.lendSupplyCall lending_app_id asset_id amount extra_args)
    else .error "amount must be positive"
  else .error "asset must be positive"

/-- `execute_lend_withdraw` handler (lines 568-597): positive asset id and
amount, then the lending app call. -/
def execute_lend_withdraw (lending_app_id asset_id amount : Nat)
    (extra_args : Bytes) : Except String StepEffect :=
  if asset_id > 0 then
    if amount > 0 then
      .ok (.lendWithdrawCall lending_app_id asset_id amount extra_args)
    else .error "amount must be positive"
  else .error "asset must be positive"

/-- `execute_withdraw_liquidity` handler (lines 600-633): positive
liquidity amount and `slippage_bps <= KEEPER_FEE_SCALE`, then the
withdrawal app call (which forwards `slippage_bps` itself). -/
def execute_withdraw_liquidity
    (target_app_id asset_a asset_b liquidity_amount slippage_bps : Nat)
    (extra_args : Bytes) : Except String StepEffect :=
  if liquidity_amount > 0 then
    if slippage_bps ≤ KEEPER_FEE_SCALE then
      .ok (.withdrawLiquidityCall target_app_id asset_a asset_b
        liquidity_amount slippage_bps extra_args)
    else .error "slippage above scale"
  else .error "amount must be positive"

/-- `execute_unstake` handler (lines 636-664): positive amount, then the
unstake app call. -/
def execute_unstake (staking_app_id asset_id amount : Nat)
    (extra_args : Bytes) : Except String StepEffect :=
  if amount > 0 then
    .ok (.unstakeCall staking_app_id asset_id amount extra_args)
  else .error "amount must be positive"

/-- `dispatch_workflow_step` subroutine (execution/contract.py, lines
316-337): a `Cond` over the opcode, in source order, with a final
`Reject()` arm for any unknown opcode.  Note the handler argument choices
of the source: `execute_transfer` receives `asset_in` and the `extra`
bytes as recipient, and `execute_lend_withdraw` receives `asset_out`. -/
def dispatch_workflow_step
    (opcode target_app_id asset_in asset_out amount slippage_bps : Nat)
    (extra_args : Bytes) : Except String StepEffect :=
  if opcode = OPCODE_SWAP then
    execute_swap target_app_id asset_in asset_out amount slippage_bps
      extra_args
  else if opcode = OPCODE_PROVIDE_LIQUIDITY then
    execute_provide_liquidity target_app_id asset_in asset_out amount
      slippage_bps extra_args
  else if opcode = OPCODE_STAKE then
    execute_stake target_app_id asset_in amount extra_args
  else if opcode = OPCODE_TRANSFER then
    execute_transfer asset_in amount extra_args
  else if opcode = OPCODE_LEND_SUPPLY then
    execute_lend_supply target_app_id asset_in amount extra_args
  else if opcode = OPCODE_LEND_WITHDRAW then
    execute_lend_withdraw target_app_id asset_out amount extra_args
  else if opcode = OPCODE_WITHDRAW_LIQUIDITY then
    execute_withdraw_liquidity target_app_id asset_in asset_out amount
      slippage_bps extra_args
  else if opcode = OPCODE_UNSTAKE then
    execute_unstake target_app_id asset_in amount extra_args
  else .error "unknown opcode"

/-- `validate_trigger` subroutine (execution/contract.py, lines 505-533):
nothing to check for a `NONE` trigger; otherwise assert a non-zero oracle
app id, require the keyed value to exist in that application state
(`App.globalGetEx`, modelled by `oracle_get`), assert the comparator is
`GTE` or `LTE`, and compare the value against the threshold. -/
def validate_trigger (trigger_type oracle_app_id : Nat) (oracle_key : Bytes)
    (comparator threshold : Nat) (oracle_get : Nat → Bytes → Option Nat) :
    Except String Unit :=
  if trigger_type ≠ TRIGGER_TYPE_NONE then
    if oracle_app_id ≠ 0 then
      match oracle_get oracle_app_id oracle_key with
      | none => .error "oracle value absent"
      | some v =>
        if comparator = COMPARATOR_GTE ∨ comparator = COMPARATOR_LTE then
          if comparator = COMPARATOR_GTE then
            if v ≥ threshold then .ok () else .error "trigger not satisfied"
          else
            if v ≤ threshold then .ok () else .error "trigger not satisfied"
        else .error "unknown comparator"
    else .error "oracle app id is zero"
  else .ok ()

/-- `maybe_pay_keeper` subroutine (execution/contract.py, lines 487-502):
submits a payment only when the recipient is not the zero address and the
amount is positive; otherwise no inner transaction at all. -/
def maybe_pay_keeper (recipient : Addr) (amount : Nat) : List RouterEffect :=
  if recipient ≠ zeroAddress ∧ amount > 0 then
    [.keeperPayout recipient amount]
  else []

/-- The per-step loop body of `execute_intent` (lines 209-236): each step
is dispatched in order; the first failing dispatch aborts the call. -/
def processSteps : List WorkflowStep → Except String (List StepEffect)
  | [] => .ok []
  | s :: rest =>
    match dispatch_workflow_step s.opcode s.target_app_id s.asset_in
        s.asset_out s.amount s.slippage_bps s.extra with
    | .error e => .error e
    | .ok eff =>
      match processSteps rest with
      | .error e => .error e
      | .ok effs => .ok (eff :: effs)

/-- The default `TriggerConfig` that `execute_intent` synthesizes for an
empty `trigger_condition` (lines 171-180): type `NONE`, oracle app 0,
empty key, comparator `GTE`, threshold 0. -/
def defaultTriggerConfig : TriggerConfig :=
  { trigger_type := TRIGGER_TYPE_NONE
    oracle_app_id := 0
    oracle_price_key := []
    comparator := COMPARATOR_GTE
    threshold := 0 }

/-- The trigger-field decode of `execute_intent` (lines 171-190): an empty
blob yields `defaultTriggerConfig`, a non-empty one goes through the ABI
decoder (`decode_trigger`, an AVM/ABI primitive taken as a parameter). -/
def decodeTriggerField (decode_trigger : Bytes → Option TriggerConfig)
    (blob : Bytes) : Option TriggerConfig :=
  if blob.length = 0 then some defaultTriggerConfig else decode_trigger blob

/-- Router global state relevant to `execute_intent`: the storage app id,
the default keeper, and the keeper fee in basis points. -/
structure RouterGlobals where
  storage_app_id : Nat
  keeper : Addr
  fee_split_bps : Nat
deriving DecidableEq

/-- The tail of `execute_intent` after the hash check passed (lines
200-261): transition to `EXECUTING`, ABI-decode the plan
(`decode_plan`, an AVM/ABI primitive taken as a parameter), require a
non-empty step list, dispatch every step, compute
`keeper_fee = collateral * fee_split_bps / KEEPER_FEE_SCALE` by
`WideRatio`, resolve the fee recipient (record keeper when the caller
passed the zero address), maybe pay the fee, transition to `SUCCESS`
carrying the verified hash, and log the status event. -/
def executePlanPhase (g : RouterGlobals)
    (decode_plan : Bytes → Option (List WorkflowStep)) (sender : Addr)
    (intent_id : Nat) (execution_plan : Bytes) (fee_recipient : Addr)
    (r : IntentRecord) (hash_check : Bytes) :
    Except String (List RouterEffect) :=
  match decode_plan execution_plan with
  | none => .error "plan does not decode"
  | some steps =>
    if steps.length > 0 then
      match processSteps steps with
      | .error e => .error e
      | .ok stepEffs =>
        let keeper_fee := r.collateral * g.fee_split_bps / KEEPER_FEE_SCALE
        let keeper_account :=
          if fee_recipient = zeroAddress then r.keeper else fee_recipient
        .ok ([.statusUpdate g.storage_app_id intent_id
                INTENT_STATUS_EXECUTING execStartDetail]
          ++ stepEffs.map .step
          ++ maybe_pay_keeper keeper_account keeper_fee
          ++ [.statusUpdate g.storage_app_id intent_id INTENT_STATUS_SUCCESS
                hash_check,
              .statusLog intent_id INTENT_STATUS_SUCCESS sender])
    else .error "empty plan"

/-- `execute_intent` method (execution/contract.py, lines 106-262).  In
source order: require a configured storage app, read the raw record from
the storage contract (`read_intent_raw` inner call, taken as a parameter
returning the decoded record), assert status `ACTIVE`, decode the trigger
field (empty means `NONE`), validate the trigger against the oracle,
compute `Sha256(execution_plan)` (`sha256` taken as a parameter) and
assert it equals the stored `workflow_hash`, then run
`executePlanPhase`. -/
def execute_intent (g : RouterGlobals) (sha256 : Bytes → Bytes)
    (read_intent_raw : Nat → Nat → Option IntentRecord)
    (oracle_get : Nat → Bytes → Option Nat)
    (decode_trigger : Bytes → Option TriggerConfig)
    (decode_plan : Bytes → Option (List WorkflowStep)) (sender : Addr)
    (intent_id : Nat) (execution_plan : Bytes) (fee_recipient : Addr) :
    Except String (List RouterEffect) :=
  if g.storage_app_id ≠ 0 then
    match read_intent_raw g.storage_app_id intent_id with
    | none => .error "intent record unavailable"
    | some r =>
      if r.status = INTENT_STATUS_ACTIVE then
        match decodeTriggerField decode_trigger r.trigger_condition with
        | none => .error "trigger does not decode"
        | some tc =>
          match validate_trigger tc.trigger_type tc.oracle_app_id
              tc.oracle_price_key tc.comparator tc.threshold oracle_get with
          | .error e => .error e
          | .ok _ =>
            let hash_check := sha256 execution_plan
            if hash_check = r.workflow_hash then
              executePlanPhase g decode_plan sender intent_id execution_plan
                fee_recipient r hash_check
            else .error "hash mismatch"
      else .error "intent not active"
  else .error "storage app not configured"

/-! ### Concrete fixtures used to evaluate the model on closed inputs -/

/-- A sample 32-byte address (the intent owner in the fixtures). -/
def addrA : Addr := List.replicate 32 1

/-- A sample 32-byte address (the keeper in the fixtures). -/
def addrB : Addr := List.replicate 32 2

/-- A sample 32-byte address (application address / step recipient). -/
def addrC : Addr := List.replicate 32 3

/-- A sample 32-byte workflow hash. -/
def sampleHash : Bytes := List.replicate 32 9

/-- A stored `ACTIVE` record with collateral 1500000, keeper `addrB`, and
an empty (unconditional) trigger. -/
def sampleActiveRecord : IntentRecord :=
  { owner := addrA
    collateral := 1500000
    workflow_hash := sampleHash
    status := INTENT_STATUS_ACTIVE
    workflow_blob := [1, 2]
    keeper := addrB
    version := 1
    trigger_condition := []
    app_escrow_id := 0
    app_asa_id := 0 }

/-- A hash oracle that maps every byte string to `sampleHash`. -/
def constHash : Bytes → Bytes := fun _ => sampleHash

/-- A storage read that returns `sampleActiveRecord` for every id. -/
def readSample : Nat → Nat → Option IntentRecord :=
  fun _ _ => some sampleActiveRecord

/-- An oracle with no values at all. -/
def noOracle : Nat → Bytes → Option Nat := fun _ _ => none

/-- A trigger decoder that rejects every blob (never consulted when the
stored trigger condition is empty). -/
def noTriggerDecode : Bytes → Option TriggerConfig := fun _ => none

/-- An executor-app address resolution that never resolves. -/
def noResolve : Nat → Option Addr := fun _ => none

/-- A box store holding `sampleActiveRecord` under every id. -/
def sampleBoxes : Nat → Option IntentRecord :=
  fun _ => some sampleActiveRecord

/-- A `TRANSFER` step of the algo (asset 0) with amount 0: exactly the
plan the repository CLI builds by default (`--transfer-amount 0`). -/
def zeroAmountTransferStep : WorkflowStep :=
  { opcode := OPCODE_TRANSFER
    target_app_id := 0
    asset_in := 0
    asset_out := 0
    amount := 0
    slippage_bps := 0
    extra := addrC }

/-- A plan decoder yielding the single zero-amount transfer step. -/
def planZeroTransfer : Bytes → Option (List WorkflowStep) :=
  fun _ => some [zeroAmountTransferStep]

/-- A `TRANSFER` step of 5 microalgo to `addrC`. -/
def oneTransferStep : WorkflowStep :=
  { opcode := OPCODE_TRANSFER
    target_app_id := 0
    asset_in := 0
    asset_out := 0
    amount := 5
    slippage_bps := 0
    extra := addrC }

/-- A plan decoder yielding the single 5-microalgo transfer step. -/
def planOneTransfer : Bytes → Option (List WorkflowStep) :=
  fun _ => some [oneTransferStep]

/-- Router configuration: storage app 7, keeper `addrB`, fee 500 bps. -/
def sampleRouterGlobals : RouterGlobals :=
  { storage_app_id := 7, keeper := addrB, fee_split_bps := 500 }

/-! ### Claim C3 -/

/-- Claim C3 states that a step whose `amount` field is 0 has the full
current balance of `asset_in` substituted at execution time and the
handlers then act on that positive resolved amount.  The execution router
does the opposite: every handler begins with `Assert(amount > Int(0))` and
no balance lookup exists anywhere in the contract, so a zero-amount step
always aborts the whole call.  This theorem evaluates the embedded code at
the failing input: a zero-amount swap aborts in `execute_swap` and in
`dispatch_workflow_step`, a zero-amount transfer aborts in
`execute_transfer`, and a full `execute_intent` call over the CLI-default
zero-amount transfer plan aborts even though the record is `ACTIVE`, the
trigger is empty, and the plan hash matches. -/
theorem C3_zero_amount_step_aborts :
    execute_swap 77 10 20 0 100 [] = .error "amount must be positive"
    ∧ dispatch_workflow_step OPCODE_SWAP 77 10 20 0 100 []
        = .error "amount must be positive"
    ∧ execute_transfer 0 0 addrC = .error "amount must be positive"
    ∧ execute_intent sampleRouterGlobals constHash readSample noOracle
        noTriggerDecode planZeroTransfer addrB 1 [0] zeroAddress
        = .error "amount must be positive" :=
  ⟨rfl, rfl, rfl, rfl⟩

/-! ### Claim C10 -/

/-- Claim C10: the `SWAP`, `PROVIDE_LIQUIDITY` and `WITHDRAW_LIQUIDITY`
handlers check `slippage_bps <= 10000` before the slippage floor is used,
so any step with `slippage_bps > 10000` aborts the call; and under the
guard, `amount * slippage_bps / 10000 <= amount`, so the minimum-out value
`amount - amount * slippage_bps / 10000` never underflows and always lies
between 0 and `amount`. -/
theorem C10_slippage_bounds (target a b amount s : Nat) (extra : Bytes) :
    (s ≤ KEEPER_FEE_SCALE →
      amount * s / KEEPER_FEE_SCALE ≤ amount
      ∧ amount_after_slippage amount s ≤ amount)
    ∧ (s > KEEPER_FEE_SCALE →
      (∀ e, execute_swap target a b amount s extra ≠ Except.ok e)
      ∧ (∀ e, execute_provide_liquidity target a b amount s extra
          ≠ Except.ok e)
      ∧ (∀ e, execute_withdraw_liquidity target a b amount s extra
          ≠ Except.ok e)) := by
  constructor
  · intro h
    have hdiv : amount * s / KEEPER_FEE_SCALE ≤ amount := by
      have h1 : amount * s ≤ amount * KEEPER_FEE_SCALE :=
        Nat.mul_le_mul_left amount h
      have h2 : amount * KEEPER_FEE_SCALE / KEEPER_FEE_SCALE = amount :=
        Nat.mul_div_cancel amount (by decide)
      calc amount * s / KEEPER_FEE_SCALE
          ≤ amount * KEEPER_FEE_SCALE / KEEPER_FEE_SCALE :=
            Nat.div_le_div_right h1
        _ = amount := h2
    exact ⟨hdiv, Nat.sub_le _ _⟩
  · intro h
    have hns : ¬ s ≤ KEEPER_FEE_SCALE := Nat.not_le.mpr h
    by_cases ha : 0 < amount <;>
      exact ⟨fun e => by simp [execute_swap, hns, ha],
             fun e => by simp [execute_provide_liquidity, hns, ha],
             fun e => by simp [execute_withdraw_liquidity, hns, ha]⟩

/-- Witness for C10: at amount 100 and 250 bps the floor stays within the
amount; at 10001 bps the swap handler aborts. -/
theorem C10_slippage_bounds_witness :
    (100 * 250 / KEEPER_FEE_SCALE ≤ 100
      ∧ amount_after_slippage 100 250 ≤ 100)
    ∧ (∀ e, execute_swap 7 1 2 100 10001 [] ≠ Except.ok e) :=
  ⟨(C10_slippage_bounds 7 1 2 100 250 []).1 (by decide),
   ((C10_slippage_bounds 7 1 2 100 10001 []).2 (by decide)).1⟩

/-! ### Claim C2 -/

/-- The five status codes of the data model. -/
def isStatusCode (s : Nat) : Prop :=
  s = INTENT_STATUS_ACTIVE ∨ s = INTENT_STATUS_EXECUTING
  ∨ s = INTENT_STATUS_SUCCESS ∨ s = INTENT_STATUS_FAILED
  ∨ s = INTENT_STATUS_CANCELLED

instance (s : Nat) : Decidable (isStatusCode s) := by
  unfold isStatusCode; infer_instance

/-- The transition table stated by the spec (section 4.1) and the claim:
any self-transition, ACTIVE to EXECUTING, ACTIVE to CANCELLED, EXECUTING
to SUCCESS, EXECUTING to FAILED.  Written from the claim words, to be
compared with `valid_status_transition` from the source. -/
def spec_transition_table (current next : Nat) : Prop :=
  current = next
  ∨ (current = INTENT_STATUS_ACTIVE ∧ next = INTENT_STATUS_EXECUTING)
  ∨ (current = INTENT_STATUS_ACTIVE ∧ next = INTENT_STATUS_CANCELLED)
  ∨ (current = INTENT_STATUS_EXECUTING ∧ next = INTENT_STATUS_SUCCESS)
  ∨ (current = INTENT_STATUS_EXECUTING ∧ next = INTENT_STATUS_FAILED)

instance (c n : Nat) : Decidable (spec_transition_table c n) := by
  unfold spec_transition_table; infer_instance

/-- The source transition predicate agrees with the table of the claim. -/
theorem valid_status_transition_eq_one_iff (c n : Nat) :
    valid_status_transition c n = 1 ↔ spec_transition_table c n := by
  unfold valid_status_transition spec_transition_table
  split
  · rename_i hcond
    constructor
    · intro _; tauto
    · intro _; rfl
  · rename_i hcond
    constructor
    · intro h; exact absurd h (by decide)
    · intro h
      exfalso
      apply hcond
      tauto

/-- Replacing the status leaves the encoded record length unchanged. -/
theorem encodedLength_set_status (r : IntentRecord) (ns : Nat) :
    intentRecordEncodedLength { r with status := ns }
      = intentRecordEncodedLength r := rfl

/-- Claim C2: for a stored record and an authorized caller,
`update_intent_status` succeeds exactly when the (current, new) pair is in
the transition table (self-transitions, ACTIVE to EXECUTING or CANCELLED,
EXECUTING to SUCCESS or FAILED); on success the record is rewritten with
only the status replaced, and otherwise the call aborts without a
rewrite. -/
theorem C2_transition_closure (maxWF exApp : Nat)
    (resolve : Nat → Option Addr) (boxes : Nat → Option IntentRecord)
    (sender : Addr) (id ns : Nat) (r : IntentRecord)
    (hbox : boxes id = some r)
    (hauth : sender = r.owner ∨ sender = r.keeper
      ∨ (exApp ≠ 0 ∧ (resolve exApp).isSome
          ∧ sender = (resolve exApp).getD []))
    (hns : isStatusCode ns)
    (hsize : intentRecordEncodedLength r ≤ maxWF) :
    ((∃ r2, update_intent_status maxWF exApp resolve boxes sender id ns
        = .ok r2)
      ↔ spec_transition_table r.status ns)
    ∧ ∀ r2, update_intent_status maxWF exApp resolve boxes sender id ns
        = .ok r2 → r2 = { r with status := ns } := by
  have hlow : INTENT_STATUS_ACTIVE ≤ ns := by
    rcases hns with h | h | h | h | h <;> subst h <;> decide
  have hhigh : ns ≤ INTENT_STATUS_CANCELLED := by
    rcases hns with h | h | h | h | h <;> subst h <;> decide
  have hsize2 : intentRecordEncodedLength { r with status := ns } ≤ maxWF :=
    by rw [encodedLength_set_status]; exact hsize
  unfold update_intent_status
  rw [if_pos hlow, if_pos hhigh, hbox]
  simp only [if_pos hauth]
  by_cases htab : spec_transition_table r.status ns
  · have hv : valid_status_transition r.status ns = 1 :=
      (valid_status_transition_eq_one_iff _ _).mpr htab
    rw [if_pos hv, if_pos hsize2]
    constructor
    · exact ⟨fun _ => htab, fun _ => ⟨_, rfl⟩⟩
    · intro r2 h
      injection h with h2
      exact h2.symm
  · have hv : valid_status_transition r.status ns ≠ 1 := fun h =>
      htab ((valid_status_transition_eq_one_iff _ _).mp h)
    rw [if_neg hv]
    constructor
    · constructor
      · rintro ⟨r2, h⟩; exact absurd h (by simp)
      · intro h; exact absurd h htab
    · intro r2 h; exact absurd h (by simp)

/-- Witness for C2: with the sample ACTIVE record and the owner as caller,
the ACTIVE to EXECUTING transition is in the table and the update
succeeds. -/
theorem C2_transition_closure_witness :
    ∃ r2, update_intent_status 4096 0 noResolve sampleBoxes addrA 1
      INTENT_STATUS_EXECUTING = .ok r2 :=
  (C2_transition_closure 4096 0 noResolve sampleBoxes addrA 1
    INTENT_STATUS_EXECUTING sampleActiveRecord rfl
    (Or.inl (by decide)) (by decide) (by decide)).1.mpr
    (by decide)

/-! ### Claim C9 -/

/-- Claim C9: `update_intent_status` aborts whenever the caller is neither
the record owner, nor the record keeper, nor the resolved executor
address, the executor alternative counting only when a non-zero executor
app id is configured and resolves; equivalently, any successful update was
made by one of those three. -/
theorem C9_update_status_authorization (maxWF exApp : Nat)
    (resolve : Nat → Option Addr) (boxes : Nat → Option IntentRecord)
    (sender : Addr) (id ns : Nat) (r r2 : IntentRecord)
    (hbox : boxes id = some r)
    (hok : update_intent_status maxWF exApp resolve boxes sender id ns
      = .ok r2) :
    sender = r.owner ∨ sender = r.keeper
      ∨ (exApp ≠ 0 ∧ (resolve exApp).isSome
          ∧ sender = (resolve exApp).getD []) := by
  unfold update_intent_status at hok
  split at hok
  · split at hok
    · rw [hbox] at hok
      simp only at hok
      split at hok
      · assumption
      · exact absurd hok (by simp)
    · exact absurd hok (by simp)
  · exact absurd hok (by simp)

/-- Witness for C9: a concrete successful update (owner caller) satisfies
the authorization disjunction. -/
theorem C9_update_status_authorization_witness :
    addrA = sampleActiveRecord.owner ∨ addrA = sampleActiveRecord.keeper
      ∨ (0 ≠ 0 ∧ (noResolve 0).isSome ∧ addrA = (noResolve 0).getD []) :=
  C9_update_status_authorization 4096 0 noResolve sampleBoxes addrA 1
    INTENT_STATUS_EXECUTING sampleActiveRecord
    { sampleActiveRecord with status := INTENT_STATUS_EXECUTING } rfl rfl

/-! ### Claim C8 -/

/-- The eight opcodes `dispatch_workflow_step` recognizes. -/
def knownOpcodes : List Nat :=
  [OPCODE_SWAP, OPCODE_PROVIDE_LIQUIDITY, OPCODE_STAKE, OPCODE_TRANSFER,
   OPCODE_LEND_SUPPLY, OPCODE_LEND_WITHDRAW, OPCODE_WITHDRAW_LIQUIDITY,
   OPCODE_UNSTAKE]

/-- A successful dispatch implies the opcode is one of the eight known
opcodes: the final arm of the `Cond` is `Reject()`. -/
theorem dispatch_ok_opcode_known
    (opcode t ain aout amt s : Nat) (ex : Bytes) (eff : StepEffect)
    (h : dispatch_workflow_step opcode t ain aout amt s ex = .ok eff) :
    opcode ∈ knownOpcodes := by
  unfold dispatch_workflow_step at h
  by_cases h1 : opcode = OPCODE_SWAP
  · simp [knownOpcodes, h1]
  by_cases h2 : opcode = OPCODE_PROVIDE_LIQUIDITY
  · simp [knownOpcodes, h2]
  by_cases h3 : opcode = OPCODE_STAKE
  · simp [knownOpcodes, h3]
  by_cases h4 : opcode = OPCODE_TRANSFER
  · simp [knownOpcodes, h4]
  by_cases h5 : opcode = OPCODE_LEND_SUPPLY
  · simp [knownOpcodes, h5]
  by_cases h6 : opcode = OPCODE_LEND_WITHDRAW
  · simp [knownOpcodes, h6]
  by_cases h7 : opcode = OPCODE_WITHDRAW_LIQUIDITY
  · simp [knownOpcodes, h7]
  by_cases h8 : opcode = OPCODE_UNSTAKE
  · simp [knownOpcodes, h8]
  rw [if_neg h1, if_neg h2, if_neg h3, if_neg h4, if_neg h5, if_neg h6,
    if_neg h7, if_neg h8] at h
  exact absurd h (by simp)

/-- Every step of a successfully processed plan dispatched successfully. -/
theorem processSteps_ok_each_dispatch (steps : List WorkflowStep)
    (effs : List StepEffect) (h : processSteps steps = .ok effs)
    (s : WorkflowStep) (hs : s ∈ steps) :
    ∃ e, dispatch_workflow_step s.opcode s.target_app_id s.asset_in
      s.asset_out s.amount s.slippage_bps s.extra = .ok e := by
  induction steps generalizing effs with
  | nil => cases hs
  | cons hd tl ih =>
    unfold processSteps at h
    cases hs with
    | head =>
      revert h
      split
      · intro h; exact absurd h (by simp)
      · rename_i e1 hd1
        intro _
        exact ⟨e1, hd1⟩
    | tail _ hs2 =>
      revert h
      split
      · intro h; exact absurd h (by simp)
      · rename_i e1 hd1
        split
        · intro h; exact absurd h (by simp)
        · rename_i effs1 htl
          intro _
          exact ih effs1 htl hs2

/-- Claim C8: if the decoded execution plan contains a step whose opcode
is not one of the eight known opcodes, `execute_intent` never succeeds:
the unknown step hits the final reject arm of the dispatch and aborts the
whole call rather than being skipped. -/
theorem C8_unknown_opcode_fatal (g : RouterGlobals) (sha : Bytes → Bytes)
    (read : Nat → Nat → Option IntentRecord)
    (oracle : Nat → Bytes → Option Nat)
    (dtrig : Bytes → Option TriggerConfig)
    (dplan : Bytes → Option (List WorkflowStep)) (sender : Addr)
    (id : Nat) (plan : Bytes) (feeR : Addr)
    (steps : List WorkflowStep) (s : WorkflowStep)
    (hplan : dplan plan = some steps) (hmem : s ∈ steps)
    (hop : s.opcode ∉ knownOpcodes) :
    ∀ effs, execute_intent g sha read oracle dtrig dplan sender id plan feeR
      ≠ .ok effs := by
  intro effs hok
  unfold execute_intent at hok
  split at hok
  · split at hok
    · exact absurd hok (by simp)
    · split at hok
      · split at hok
        · exact absurd hok (by simp)
        · split at hok
          · exact absurd hok (by simp)
          · simp only [] at hok
            split at hok
            · unfold executePlanPhase at hok
              rw [hplan] at hok
              simp only at hok
              split at hok
              · split at hok
                · exact absurd hok (by simp)
                · rename_i stepEffs hsteps
                  obtain ⟨e, he⟩ :=
                    processSteps_ok_each_dispatch steps stepEffs hsteps s hmem
                  exact hop (dispatch_ok_opcode_known s.opcode s.target_app_id
                    s.asset_in s.asset_out s.amount s.slippage_bps s.extra
                    e he)
              · exact absurd hok (by simp)
            · exact absurd hok (by simp)
      · exact absurd hok (by simp)
  · exact absurd hok (by simp)

/-- A step with the unknown opcode 99. -/
def unknownOpcodeStep : WorkflowStep :=
  { opcode := 99
    target_app_id := 0
    asset_in := 0
    asset_out := 0
    amount := 5
    slippage_bps := 0
    extra := addrC }

/-- A plan decoder yielding the single unknown-opcode step. -/
def planUnknownOpcode : Bytes → Option (List WorkflowStep) :=
  fun _ => some [unknownOpcodeStep]

/-- Witness for C8: a concrete call whose plan decodes to the single
opcode-99 step does not succeed. -/
theorem C8_unknown_opcode_fatal_witness :
    execute_intent sampleRouterGlobals constHash readSample noOracle
      noTriggerDecode planUnknownOpcode addrB 1 [0] zeroAddress
      ≠ .ok [] :=
  C8_unknown_opcode_fatal sampleRouterGlobals constHash readSample noOracle
    noTriggerDecode planUnknownOpcode addrB 1 [0] zeroAddress
    [unknownOpcodeStep] unknownOpcodeStep rfl (by decide) (by decide) []

/-! ### Claim C4 -/

/-- Claim C4 as stated is false on the code: `ensure_collateral_payment`
checks the preceding group transaction only when the collateral amount is
non-zero (`If(amount != Int(0))` with no else branch), so with
`min_collateral = 0` (the creation default of the storage contract) a
`register_intent` call with collateral 0 succeeds even though the group
contains no payment at all — here the register call is alone in its group
(`group = []`, `group_index = 0`), so no transaction precedes it, yet the
call succeeds and creates the record. -/
theorem C4_counterexample_zero_collateral :
    register_intent 4096 0 addrB 1 addrC [] 0 addrA sampleHash [1, 2] [] 0
      zeroAddress 1 0 0
      = .ok (1,
        { owner := addrA
          collateral := 0
          workflow_hash := sampleHash
          status := INTENT_STATUS_ACTIVE
          workflow_blob := [1, 2]
          keeper := addrB
          version := 1
          trigger_condition := []
          app_escrow_id := 0
          app_asa_id := 0 }, 2) := rfl

/-- Claim C4, amended: `register_intent` succeeds only if the blob is
within the size bound, the collateral is at least `min_collateral`, and —
whenever the collateral amount is non-zero — the immediately preceding
transaction in the atomic group is a payment of exactly that amount from
the caller to the ledger address; the payment-leg requirement is skipped
when the collateral amount is 0 (possible only when `min_collateral` is
0). -/
theorem C4_register_collateral_guard (maxWF minC : Nat)
    (gk : Addr) (nid : Nat) (appAddr : Addr) (group : List GroupTxn)
    (gi : Nat) (sender : Addr) (h blob trig : Bytes) (c : Nat) (ko : Addr)
    (v e a : Nat) (res : Nat × IntentRecord × Nat)
    (hok : register_intent maxWF minC gk nid appAddr group gi sender h blob
      trig c ko v e a = .ok res) :
    blob.length ≤ maxWF ∧ minC ≤ c
    ∧ (c ≠ 0 → 0 < gi
        ∧ ∃ t, group.get? (gi - 1) = some t ∧ t.type_enum = 1
            ∧ t.receiver = appAddr ∧ t.sender = sender ∧ t.amount = c) := by
  unfold register_intent at hok
  split at hok
  · split at hok
    · rename_i hblob hminc
      refine ⟨hblob, hminc, ?_⟩
      intro hc
      revert hok
      split
      · intro hok; exact absurd hok (by simp)
      · rename_i u hpay
        intro _
        unfold ensure_collateral_payment at hpay
        rw [if_pos hc] at hpay
        revert hpay
        split
        · rename_i hgi
          split
          · intro hpay; exact absurd hpay (by simp)
          · rename_i t ht
            split
            · rename_i htype
              split
              · rename_i hrecv
                split
                · rename_i hsend
                  split
                  · rename_i hamt
                    intro _
                    exact ⟨hgi, t, ht, htype, hrecv, hsend, hamt⟩
                  · intro hpay; exact absurd hpay (by simp)
                · intro hpay; exact absurd hpay (by simp)
              · intro hpay; exact absurd hpay (by simp)
            · intro hpay; exact absurd hpay (by simp)
        · intro hpay; exact absurd hpay (by simp)
    · exact absurd hok (by simp)
  · exact absurd hok (by simp)

/-- The collateral payment leg used by the C4 witness: 1500000 microalgo
from `addrA` to the application address `addrC`. -/
def collateralPayment : GroupTxn :=
  { type_enum := 1, sender := addrA, receiver := addrC, amount := 1500000 }

/-- Witness for C4 (amended): a successful registration with non-zero
collateral satisfies all three guard conditions. -/
theorem C4_register_collateral_guard_witness :
    ([1, 2] : Bytes).length ≤ 4096 ∧ 0 ≤ 1500000
    ∧ (1500000 ≠ 0 → 0 < 1
        ∧ ∃ t, [collateralPayment].get? (1 - 1) = some t ∧ t.type_enum = 1
            ∧ t.receiver = addrC ∧ t.sender = addrA
            ∧ t.amount = 1500000) :=
  C4_register_collateral_guard 4096 0 addrB 1 addrC [collateralPayment] 1
    addrA sampleHash [1, 2] [] 1500000 zeroAddress 1 0 0
    (1, sampleActiveRecord, 2) rfl

/-! ### Claim C5 -/

/-- Zeroing the collateral leaves the encoded record length unchanged. -/
theorem encodedLength_set_collateral (r : IntentRecord) :
    intentRecordEncodedLength { r with collateral := 0 }
      = intentRecordEncodedLength r := rfl

/-- Claim C5: for a stored record, `withdraw_intent` succeeds exactly when
the caller is the owner, the status is SUCCESS, FAILED or CANCELLED, and
the collateral is non-zero; on success it pays the full collateral to the
recipient (the owner when the recipient argument is the zero address) in
one transfer, returns that amount, rewrites the record with collateral 0,
and a second withdrawal against the rewritten record always aborts. -/
theorem C5_withdraw_exactly_once (maxWF : Nat)
    (boxes : Nat → Option IntentRecord) (sender : Addr) (id : Nat)
    (recipient : Addr) (r : IntentRecord)
    (hbox : boxes id = some r)
    (hsize : intentRecordEncodedLength r ≤ maxWF) :
    ((∃ out, withdraw_intent maxWF boxes sender id recipient = .ok out)
      ↔ (sender = r.owner
          ∧ (r.status = INTENT_STATUS_SUCCESS
              ∨ r.status = INTENT_STATUS_FAILED
              ∨ r.status = INTENT_STATUS_CANCELLED)
          ∧ r.collateral ≠ 0))
    ∧ ∀ pay r2 amt,
        withdraw_intent maxWF boxes sender id recipient = .ok (pay, r2, amt)
        → pay.receiver
            = (if recipient = zeroAddress then r.owner else recipient)
          ∧ pay.amount = r.collateral ∧ amt = r.collateral
          ∧ r2 = { r with collateral := 0 }
          ∧ ∀ boxes2 : Nat → Option IntentRecord, boxes2 id = some r2 →
              ∀ out2, withdraw_intent maxWF boxes2 sender id recipient
                ≠ .ok out2 := by
  have hsize2 : intentRecordEncodedLength { r with collateral := 0 } ≤ maxWF
    := by rw [encodedLength_set_collateral]; exact hsize
  unfold withdraw_intent
  rw [hbox]
  simp only []
  by_cases howner : sender = r.owner
  · rw [if_pos howner]
    by_cases hstat : r.status = INTENT_STATUS_SUCCESS
        ∨ r.status = INTENT_STATUS_FAILED
        ∨ r.status = INTENT_STATUS_CANCELLED
    · rw [if_pos hstat]
      by_cases hcoll : r.collateral ≠ 0
      · rw [if_pos hcoll, if_pos hsize2]
        constructor
        · exact ⟨fun _ => ⟨howner, hstat, hcoll⟩, fun _ => ⟨_, rfl⟩⟩
        · intro pay r2 amt hok
          injection hok with hok2
          injection hok2 with ha hbc
          injection hbc with hb hc
          subst ha
          subst hb
          subst hc
          refine ⟨rfl, rfl, rfl, rfl, ?_⟩
          intro boxes2 hbox2 out2 hout2
          rw [hbox2] at hout2
          simp only [] at hout2
          rw [if_pos
            (show sender = ({ r with collateral := 0 } : IntentRecord).owner
              from howner)] at hout2
          rw [if_pos
            (show ({ r with collateral := 0 } : IntentRecord).status
                  = INTENT_STATUS_SUCCESS
                ∨ ({ r with collateral := 0 } : IntentRecord).status
                  = INTENT_STATUS_FAILED
                ∨ ({ r with collateral := 0 } : IntentRecord).status
                  = INTENT_STATUS_CANCELLED
              from hstat)] at hout2
          rw [if_neg
            (show ¬(({ r with collateral := 0 } : IntentRecord).collateral
                ≠ 0) from by simp)] at hout2
          exact absurd hout2 (by simp)
      · rw [if_neg hcoll]
        constructor
        · constructor
          · rintro ⟨out, hout⟩; exact absurd hout (by simp)
          · rintro ⟨_, _, hc⟩; exact absurd hc hcoll
        · intro pay r2 amt hok; exact absurd hok (by simp)
    · rw [if_neg hstat]
      constructor
      · constructor
        · rintro ⟨out, hout⟩; exact absurd hout (by simp)
        · rintro ⟨_, hs, _⟩; exact absurd hs hstat
      · intro pay r2 amt hok; exact absurd hok (by simp)
  · rw [if_neg howner]
    constructor
    · constructor
      · rintro ⟨out, hout⟩; exact absurd hout (by simp)
      · rintro ⟨ho, _⟩; exact absurd ho howner
    · intro pay r2 amt hok; exact absurd hok (by simp)

/-- The sample record after a successful execution (status SUCCESS). -/
def sampleSuccessRecord : IntentRecord :=
  { sampleActiveRecord with status := INTENT_STATUS_SUCCESS }

/-- A box store holding `sampleSuccessRecord` under every id. -/
def sampleSuccessBoxes : Nat → Option IntentRecord :=
  fun _ => some sampleSuccessRecord

/-- Witness for C5: the owner withdraws from a SUCCESS record with
collateral 1500000. -/
theorem C5_withdraw_exactly_once_witness :
    ∃ out, withdraw_intent 4096 sampleSuccessBoxes addrA 1 zeroAddress
      = .ok out :=
  (C5_withdraw_exactly_once 4096 sampleSuccessBoxes addrA 1 zeroAddress
    sampleSuccessRecord rfl (by decide)).1.mpr
    ⟨by decide, Or.inl (by decide), by decide⟩

/-! ### Claim C1 -/

/-- Claim C1: for a registered intent read back with stored hash `H` and
an otherwise passing preamble (configured storage app, ACTIVE status,
passing trigger gate), `execute_intent` compares the hash of the supplied
`execution_plan` with `H` and aborts exactly when they differ — for any
plan bytes, well-formed or not — and proceeds into the plan phase exactly
when they agree. -/
theorem C1_hash_integrity (g : RouterGlobals) (sha : Bytes → Bytes)
    (read : Nat → Nat → Option IntentRecord)
    (oracle : Nat → Bytes → Option Nat)
    (dtrig : Bytes → Option TriggerConfig)
    (dplan : Bytes → Option (List WorkflowStep)) (sender : Addr)
    (id : Nat) (plan : Bytes) (feeR : Addr) (r : IntentRecord)
    (tc : TriggerConfig)
    (hs : g.storage_app_id ≠ 0)
    (hr : read g.storage_app_id id = some r)
    (hactive : r.status = INTENT_STATUS_ACTIVE)
    (htc : decodeTriggerField dtrig r.trigger_condition = some tc)
    (htrig : validate_trigger tc.trigger_type tc.oracle_app_id
      tc.oracle_price_key tc.comparator tc.threshold oracle = .ok ()) :
    (sha plan ≠ r.workflow_hash →
      execute_intent g sha read oracle dtrig dplan sender id plan feeR
        = .error "hash mismatch")
    ∧ (sha plan = r.workflow_hash →
      execute_intent g sha read oracle dtrig dplan sender id plan feeR
        = executePlanPhase g dplan sender id plan feeR r (sha plan)) := by
  unfold execute_intent
  rw [if_pos hs, hr]
  simp only []
  rw [if_pos hactive, htc]
  simp only []
  rw [htrig]
  constructor
  · intro hne
    rw [if_neg hne]
  · intro heq
    rw [if_pos heq]

/-- A hash oracle returning a constant value distinct from `sampleHash`. -/
def otherHash : Bytes → Bytes := fun _ => List.replicate 32 8

/-- Witness for C1: with a stored hash of all 9 bytes and a computed hash
of all 8 bytes, the call aborts with the hash mismatch error. -/
theorem C1_hash_integrity_witness :
    execute_intent sampleRouterGlobals otherHash readSample noOracle
      noTriggerDecode planOneTransfer addrB 1 [0] zeroAddress
      = .error "hash mismatch" :=
  (C1_hash_integrity sampleRouterGlobals otherHash readSample noOracle
    noTriggerDecode planOneTransfer addrB 1 [0] zeroAddress
    sampleActiveRecord defaultTriggerConfig (by decide) rfl rfl rfl rfl).1
    (by decide)

/-! ### Claim C7 -/

/-- Claim C7: `execute_intent` reaches step dispatch only when the record
status is ACTIVE and the trigger gate passes; an empty `trigger_condition`
decodes to the `NONE` default and always passes; and for a non-`NONE`
trigger (with its designated non-zero oracle app and a `GTE`/`LTE`
comparator) the gate aborts when the keyed oracle value is absent and
otherwise passes exactly when the value satisfies the comparator against
the threshold. -/
theorem C7_trigger_gate (g : RouterGlobals) (sha : Bytes → Bytes)
    (read : Nat → Nat → Option IntentRecord)
    (oracle : Nat → Bytes → Option Nat)
    (dtrig : Bytes → Option TriggerConfig)
    (dplan : Bytes → Option (List WorkflowStep)) (sender : Addr)
    (id : Nat) (plan : Bytes) (feeR : Addr) (r : IntentRecord)
    (tc : TriggerConfig)
    (hr : read g.storage_app_id id = some r)
    (htc : decodeTriggerField dtrig r.trigger_condition = some tc) :
    (∀ effs, execute_intent g sha read oracle dtrig dplan sender id plan
        feeR = .ok effs →
      r.status = INTENT_STATUS_ACTIVE
      ∧ validate_trigger tc.trigger_type tc.oracle_app_id
          tc.oracle_price_key tc.comparator tc.threshold oracle = .ok ())
    ∧ (r.trigger_condition = [] →
      tc = defaultTriggerConfig
      ∧ validate_trigger tc.trigger_type tc.oracle_app_id
          tc.oracle_price_key tc.comparator tc.threshold oracle = .ok ())
    ∧ (tc.trigger_type ≠ TRIGGER_TYPE_NONE → tc.oracle_app_id ≠ 0 →
        (tc.comparator = COMPARATOR_GTE ∨ tc.comparator = COMPARATOR_LTE) →
        (oracle tc.oracle_app_id tc.oracle_price_key = none →
          ∀ u, validate_trigger tc.trigger_type tc.oracle_app_id
            tc.oracle_price_key tc.comparator tc.threshold oracle
            ≠ .ok u)
        ∧ (∀ v, oracle tc.oracle_app_id tc.oracle_price_key = some v →
            (validate_trigger tc.trigger_type tc.oracle_app_id
                tc.oracle_price_key tc.comparator tc.threshold oracle
                = .ok ()
              ↔ ((tc.comparator = COMPARATOR_GTE → tc.threshold ≤ v)
                  ∧ (tc.comparator = COMPARATOR_LTE
                      → v ≤ tc.threshold))))) := by
  refine ⟨?_, ?_, ?_⟩
  · intro effs hok
    unfold execute_intent at hok
    split at hok
    · split at hok
      · exact absurd hok (by simp)
      · rename_i r1 hr1
        rw [hr] at hr1
        injection hr1 with hr2
        subst hr2
        split at hok
        · rename_i hactive
          split at hok
          · exact absurd hok (by simp)
          · rename_i tc1 htc1
            rw [htc] at htc1
            injection htc1 with htc2
            subst htc2
            split at hok
            · exact absurd hok (by simp)
            · rename_i u hval
              cases u
              exact ⟨hactive, hval⟩
        · exact absurd hok (by simp)
    · exact absurd hok (by simp)
  · intro hempty
    rw [hempty] at htc
    unfold decodeTriggerField at htc
    simp only [List.length_nil, if_pos] at htc
    injection htc with htc2
    subst htc2
    exact ⟨rfl, rfl⟩
  · intro htype hoapp hcmp
    constructor
    · intro hnone u hbad
      unfold validate_trigger at hbad
      rw [if_pos htype, if_pos hoapp, hnone] at hbad
      exact absurd hbad (by simp)
    · intro v hv
      unfold validate_trigger
      rw [if_pos htype, if_pos hoapp, hv]
      simp only []
      rw [if_pos hcmp]
      rcases hcmp with hg | hl
      · rw [if_pos hg]
        by_cases hvt : v ≥ tc.threshold
        · rw [if_pos hvt]
          constructor
          · intro _
            exact ⟨fun _ => hvt,
              fun hlte => absurd (hg.symm.trans hlte) (by decide)⟩
          · intro _; rfl
        · rw [if_neg hvt]
          constructor
          · intro hbad; exact absurd hbad (by simp)
          · rintro ⟨h1, _⟩; exact absurd (h1 hg) hvt
      · have hng : ¬ tc.comparator = COMPARATOR_GTE := by
          rw [hl]; decide
        rw [if_neg hng]
        by_cases hvt : v ≤ tc.threshold
        · rw [if_pos hvt]
          constructor
          · intro _
            exact ⟨fun hgte => absurd (hl.symm.trans hgte) (by decide),
              fun _ => hvt⟩
          · intro _; rfl
        · rw [if_neg hvt]
          constructor
          · intro hbad; exact absurd hbad (by simp)
          · rintro ⟨_, h2⟩; exact absurd (h2 hl) hvt

/-- The effect trace of the sample successful execution: EXECUTING
update, the 5-microalgo transfer step, the keeper fee payout of
1500000 * 500 / 10000 = 75000 to the record keeper, the SUCCESS update
carrying the verified hash, and the final status log. -/
def sampleSuccessEffects : List RouterEffect :=
  [.statusUpdate 7 1 INTENT_STATUS_EXECUTING execStartDetail,
   .step (.payTxn addrC 5),
   .keeperPayout addrB 75000,
   .statusUpdate 7 1 INTENT_STATUS_SUCCESS sampleHash,
   .statusLog 1 INTENT_STATUS_SUCCESS addrB]

/-- Witness for C7: the sample successful run implies ACTIVE status and a
passing trigger gate at the decoded (default) trigger config. -/
theorem C7_trigger_gate_witness :
    sampleActiveRecord.status = INTENT_STATUS_ACTIVE
    ∧ validate_trigger defaultTriggerConfig.trigger_type
        defaultTriggerConfig.oracle_app_id
        defaultTriggerConfig.oracle_price_key
        defaultTriggerConfig.comparator defaultTriggerConfig.threshold
        noOracle = .ok () :=
  (C7_trigger_gate sampleRouterGlobals constHash readSample noOracle
    noTriggerDecode planOneTransfer addrB 1 [0] zeroAddress
    sampleActiveRecord defaultTriggerConfig rfl rfl).1
    sampleSuccessEffects rfl

/-! ### Claim C6 -/

/-- A stored ACTIVE record whose keeper is the zero address (reachable:
`configure` accepts any default keeper and `register_intent` copies it
into the record when the override is zero). -/
def zeroKeeperRecord : IntentRecord :=
  { owner := addrA
    collateral := 100
    workflow_hash := sampleHash
    status := INTENT_STATUS_ACTIVE
    workflow_blob := [1]
    keeper := zeroAddress
    version := 1
    trigger_condition := []
    app_escrow_id := 0
    app_asa_id := 0 }

/-- A storage read that returns `zeroKeeperRecord` for every id. -/
def readZeroKeeper : Nat → Nat → Option IntentRecord :=
  fun _ _ => some zeroKeeperRecord

/-- Claim C6 as stated is false on the code: with collateral 100 and
fee 500 bps the fee is 5 > 0, the caller passes the zero address as
`fee_recipient`, and the record keeper is also the zero address, so the
resolved recipient is the zero address and `maybe_pay_keeper` submits no
payment at all — the call succeeds with an effect trace containing no
keeper payout, although the claim requires the positive fee to be paid to
the record keeper. -/
theorem C6_counterexample_zero_keeper :
    100 * sampleRouterGlobals.fee_split_bps / KEEPER_FEE_SCALE = 5
    ∧ execute_intent sampleRouterGlobals constHash readZeroKeeper noOracle
        noTriggerDecode planOneTransfer addrB 1 [0] zeroAddress
      = .ok [.statusUpdate 7 1 INTENT_STATUS_EXECUTING execStartDetail,
             .step (.payTxn addrC 5),
             .statusUpdate 7 1 INTENT_STATUS_SUCCESS sampleHash,
             .statusLog 1 INTENT_STATUS_SUCCESS addrB] :=
  ⟨rfl, rfl⟩

/-- The keeper payout occurs in the effect trace of the plan phase exactly
when the resolved account is non-zero and the fee positive, and then it
carries exactly that account and fee. -/
theorem keeperPayout_mem_trace (storage id : Nat) (d1 : Bytes)
    (stepEffs : List StepEffect) (acct : Addr) (fee : Nat) (hc : Bytes)
    (sender : Addr) (recv : Addr) (amt : Nat) :
    (RouterEffect.keeperPayout recv amt
      ∈ ([RouterEffect.statusUpdate storage id INTENT_STATUS_EXECUTING d1]
        ++ stepEffs.map RouterEffect.step
        ++ maybe_pay_keeper acct fee
        ++ [RouterEffect.statusUpdate storage id INTENT_STATUS_SUCCESS hc,
            RouterEffect.statusLog id INTENT_STATUS_SUCCESS sender]))
    ↔ (acct ≠ zeroAddress ∧ 0 < fee ∧ recv = acct ∧ amt = fee) := by
  unfold maybe_pay_keeper
  by_cases hcond : acct ≠ zeroAddress ∧ 0 < fee
  · rw [if_pos hcond]
    simp
    tauto
  · rw [if_neg hcond]
    simp
    tauto

/-- Claim C6, amended: on a successful `execute_intent` the keeper fee is
`floor(collateral * fee_bps / 10000)` in exact integer arithmetic, the
recipient is resolved to `fee_recipient`, or to the record keeper when
`fee_recipient` is the zero address; the fee payment appears in the trace
exactly when the fee is positive and the resolved recipient is not the
zero address (in particular, no payment is made when both `fee_recipient`
and the record keeper are the zero address), and any payout in the trace
carries exactly the resolved recipient and the computed fee. -/
theorem C6_fee_computation (g : RouterGlobals) (sha : Bytes → Bytes)
    (read : Nat → Nat → Option IntentRecord)
    (oracle : Nat → Bytes → Option Nat)
    (dtrig : Bytes → Option TriggerConfig)
    (dplan : Bytes → Option (List WorkflowStep)) (sender : Addr)
    (id : Nat) (plan : Bytes) (feeR : Addr) (r : IntentRecord)
    (effs : List RouterEffect)
    (hr : read g.storage_app_id id = some r)
    (hok : execute_intent g sha read oracle dtrig dplan sender id plan feeR
      = .ok effs) :
    ((∃ recv amt, RouterEffect.keeperPayout recv amt ∈ effs)
      ↔ ((if feeR = zeroAddress then r.keeper else feeR) ≠ zeroAddress
          ∧ 0 < r.collateral * g.fee_split_bps / KEEPER_FEE_SCALE))
    ∧ ∀ recv amt, RouterEffect.keeperPayout recv amt ∈ effs →
        recv = (if feeR = zeroAddress then r.keeper else feeR)
        ∧ amt = r.collateral * g.fee_split_bps / KEEPER_FEE_SCALE := by
  unfold execute_intent at hok
  split at hok
  · split at hok
    · exact absurd hok (by simp)
    · rename_i r1 hr1
      rw [hr] at hr1
      injection hr1 with hr2
      subst hr2
      split at hok
      · split at hok
        · exact absurd hok (by simp)
        · split at hok
          · exact absurd hok (by simp)
          · simp only [] at hok
            split at hok
            · unfold executePlanPhase at hok
              split at hok
              · exact absurd hok (by simp)
              · split at hok
                · split at hok
                  · exact absurd hok (by simp)
                  · simp only [] at hok
                    injection hok with hok2
                    subst hok2
                    constructor
                    · constructor
                      · rintro ⟨recv, amt, hmem⟩
                        obtain ⟨h1, h2, _, _⟩ :=
                          (keeperPayout_mem_trace _ _ _ _ _ _ _ _ _ _).mp
                            hmem
                        exact ⟨h1, h2⟩
                      · rintro ⟨h1, h2⟩
                        exact ⟨_, _,
                          (keeperPayout_mem_trace _ _ _ _ _ _ _ _ _ _).mpr
                            ⟨h1, h2, rfl, rfl⟩⟩
                    · intro recv amt hmem
                      obtain ⟨_, _, h3, h4⟩ :=
                        (keeperPayout_mem_trace _ _ _ _ _ _ _ _ _ _).mp hmem
                      exact ⟨h3, h4⟩
                · exact absurd hok (by simp)
            · exact absurd hok (by simp)
      · exact absurd hok (by simp)
  · exact absurd hok (by simp)

/-- Witness for C6 (amended): the sample successful run pays the fee — the
resolved recipient (the record keeper, since the caller passed the zero
address) is non-zero and the fee 75000 is positive, so a payout is in the
trace. -/
theorem C6_fee_computation_witness :
    ∃ recv amt,
      RouterEffect.keeperPayout recv amt ∈ sampleSuccessEffects :=
  (C6_fee_computation sampleRouterGlobals constHash readSample noOracle
    noTriggerDecode planOneTransfer addrB 1 [0] zeroAddress
    sampleActiveRecord sampleSuccessEffects rfl rfl).1.mpr
    (by decide)

end AlgoFlow
